import Mathlib

/-!
Verification development for the rev_textos revision pipeline.

The definitions below are a shallow embedding of the Python sources:
core entities (src/core/entities), the convergence-driven section
revision loop (src/application/use_cases/revisar_secao), the Gemini
gateway resilience layer (src/infrastructure/ai/gemini_gateway.py) and
the pipeline orchestration (src/application/services and
src/application/use_cases/processar_texto).  Machine floats of the
source are modelled with rationals, timestamps with rational clock
values, and the md5 cache key with the hashed data itself.
-/

/-- Embedding of enum TipoErro (src/core/enums/tipo_erro.py). -/
inductive TipoErro
  | gramatical
  | tecnico
  | juridico
  | formatacao
  | consistencia
  | referencia
  | numerico
  | logico
  | omissao
  | outro
deriving DecidableEq

/-- The value of a TipoErro member, as in the Python Enum. -/
def TipoErro.valor : TipoErro → String
  | .gramatical => "gramatical"
  | .tecnico => "tecnico"
  | .juridico => "juridico"
  | .formatacao => "formatacao"
  | .consistencia => "consistencia"
  | .referencia => "referencia"
  | .numerico => "numerico"
  | .logico => "logico"
  | .omissao => "omissao"
  | .outro => "outro"

/-- Embedding of enum StatusTexto (src/core/enums/status_texto.py). -/
inductive StatusTexto
  | pendente
  | processando
  | revisando
  | validando
  | concluido
  | erro
  | cancelado
  | pausado
deriving DecidableEq

/-- Embedding of entity Erro (src/core/entities/erro.py); timestamps,
location and the float confidence field are omitted, they play no part
in the verified operations. -/
structure Erro where
  tipo : TipoErro
  descricao : String
  trecho_original : String
  sugestao_correcao : String
  severidade : Nat := 1
  agente_origem : String := ""
  justificativa : String := ""
deriving DecidableEq

/-- Python whitespace characters used by str.split with no argument:
space, tab, newline, carriage return, vertical tab, form feed. -/
def ehEspacoPython (c : Char) : Bool :=
  c = ' ' || c = '\t' || c = '\n' || c = '\r' ||
    c = Char.ofNat 11 || c = Char.ofNat 12

/-- Whitespace-run normalization used by Secao.obter_todos_erros:
the Python expression is a space-join of trecho.split(). -/
def normalizar_trecho (s : String) : String :=
  String.intercalate " "
    ((s.split ehEspacoPython).filter (fun t => decide (t ≠ "")))

/-- Deduplication key of an error: (tipo.value, normalized snippet),
as built inside Secao.obter_todos_erros. -/
def chave_erro (e : Erro) : String × String :=
  (e.tipo.valor, normalizar_trecho e.trecho_original)

/-- Embedding of entity Revisao (src/core/entities/revisao.py);
datetime fields and token metrics are omitted. -/
structure Revisao where
  numero_iteracao : Nat
  texto_entrada : String
  texto_saida : String := ""
  erros : List Erro := []
  agente : String := ""
  convergiu : Bool := false
deriving DecidableEq

/-- Property Revisao.total_erros. -/
def Revisao.total_erros (r : Revisao) : Nat :=
  r.erros.length

/-- Embedding of entity Secao (src/core/entities/secao.py); creation
date, metadata and the configuration id are omitted. -/
structure Secao where
  titulo : String
  conteudo_original : String
  numero_pagina_inicio : Nat
  numero_pagina_fim : Nat
  revisoes : List Revisao := []
  status : StatusTexto := .pendente
deriving DecidableEq

/-- Secao.adicionar_revisao: appends the revision; if it is marked as
converged the section status becomes CONCLUIDO. -/
def Secao.adicionar_revisao (s : Secao) (r : Revisao) : Secao :=
  { s with
      revisoes := s.revisoes ++ [r]
      status := if r.convergiu then .concluido else s.status }

/-- Secao.obter_ultima_revisao. -/
def Secao.obter_ultima_revisao (s : Secao) : Option Revisao :=
  s.revisoes.getLast?

/-- The seen-set filtering loop inside Secao.obter_todos_erros: walk
the flattened error list, keep an error when its key is not yet in the
set of seen keys. -/
def dedupErros : List Erro → List (String × String) → List Erro
  | [], _ => []
  | e :: resto, unicos =>
    let chave := chave_erro e
    if chave ∈ unicos then dedupErros resto unicos
    else e :: dedupErros resto (chave :: unicos)

/-- Secao.obter_todos_erros: unique errors over all revisions, keyed
by (tipo, normalized snippet), first occurrence kept. -/
def Secao.obter_todos_erros (s : Secao) : List Erro :=
  dedupErros ((s.revisoes.map Revisao.erros).flatten) []

/-- RevisarSecaoUseCase._verificar_convergencia
(src/application/use_cases/revisar_secao/revisar_secao_use_case.py):
zero current errors converge; zero previous errors do not; otherwise
the reduction rate 1 - atual/anterior must be strictly below
1 - limiar. -/
def verificar_convergencia (erros_anterior erros_atual : Nat)
    (limiar : ℚ) : Bool :=
  if erros_atual = 0 then true
  else if erros_anterior = 0 then false
  else decide
    ((1 : ℚ) - (erros_atual : ℚ) / (erros_anterior : ℚ) < 1 - limiar)

/-- Embedding of the RevisarSecaoOutputDTO dataclass
(src/application/use_cases/revisar_secao/dto.py); the per-type counter
dict is an insertion-ordered association list. -/
structure RevisarSecaoOutputDTO where
  titulo_secao : String := ""
  total_erros : Nat := 0
  total_iteracoes : Nat := 0
  convergiu : Bool := false
  erros_por_tipo : List (String × Nat) := []
  texto_revisado : String := ""
  sucesso : Bool := true
deriving DecidableEq

/-- One step of the dict update erros_por_tipo[tipo] = get(tipo,0)+1
inside RevisarSecaoUseCase._criar_output. -/
def incrementar_contador (chave : String) :
    List (String × Nat) → List (String × Nat)
  | [] => [(chave, 1)]
  | (k, v) :: resto =>
    if k = chave then (k, v + 1) :: resto
    else (k, v) :: incrementar_contador chave resto

/-- The per-type error counting loop of
RevisarSecaoUseCase._criar_output. -/
def erros_por_tipo_de (erros : List Erro) : List (String × Nat) :=
  erros.foldl (fun d e => incrementar_contador e.tipo.valor d) []

/-- RevisarSecaoUseCase._criar_output: builds the output DTO from the
section, unconditionally with sucesso = true. -/
def criar_output (secao : Secao) (convergiu : Bool) :
    RevisarSecaoOutputDTO :=
  let erros := secao.obter_todos_erros
  { titulo_secao := secao.titulo
    total_erros := erros.length
    total_iteracoes := secao.revisoes.length
    convergiu := convergiu
    erros_por_tipo := erros_por_tipo_de erros
    texto_revisado :=
      match secao.obter_ultima_revisao with
      | some r => r.texto_saida
      | none => ""
    sucesso := true }

/-- Cache key of GeminiGateway._gerar_cache_key: the md5 hash of
"prompt|contexto|temperatura" is modelled by the hashed data itself
(the hash is deterministic; collisions are abstracted away). -/
def gerar_cache_key (prompt : String) (contexto : Option String)
    (temperatura : ℚ) : String × Option String × ℚ :=
  (prompt, contexto, temperatura)

/-- Type synonym for modelled cache keys. -/
abbrev ChaveCache := String × Option String × ℚ

/-- Lookup in the in-process response cache dict. -/
def cache_get (cache : List (ChaveCache × String)) (k : ChaveCache) :
    Option String :=
  (cache.find? (fun p => decide (p.1 = k))).map Prod.snd

/-- Python dict assignment on the response cache: overwrite in place
when the key exists, append otherwise. -/
def cache_set (cache : List (ChaveCache × String)) (k : ChaveCache)
    (v : String) : List (ChaveCache × String) :=
  if (cache_get cache k).isSome then
    cache.map (fun p => if p.1 = k then (k, v) else p)
  else cache ++ [(k, v)]

/-- GeminiGateway.limpar_cache: clears the whole response cache. -/
def limpar_cache (_cache : List (ChaveCache × String)) :
    List (ChaveCache × String) :=
  []

/-- The metrics dict of GeminiGateway; tempo_total_seg is a rational
instead of a float. -/
structure Metricas where
  total_requests : Nat := 0
  total_tokens_input : Nat := 0
  total_tokens_output : Nat := 0
  total_erros : Nat := 0
  tempo_total_seg : ℚ := 0
deriving DecidableEq

/-- Mutable state of one GeminiGateway instance: response cache,
metrics and the rate-limit timestamp list. -/
structure GatewayState where
  cache : List (ChaveCache × String) := []
  metricas : Metricas := {}
  request_timestamps : List ℚ := []
deriving DecidableEq

/-- Observable effects of one gerar_conteudo run: transport
invocations, backoff sleeps and rate-limit sleeps. -/
inductive Efeito
  | transportCall (tentativa : Nat)
  | sleepBackoff (segundos : ℚ)
  | sleepRateLimit (segundos : ℚ)
deriving DecidableEq

/-- Outcome of one raw transport invocation, abstracting the Gemini
API call of _executar_request: a response text with usage metadata, a
rate-limit-class failure, or a generic transient failure. -/
inductive TransportOutcome
  | ok (texto : String) (tokens_in tokens_out : Nat) (tempo : ℚ)
  | rateLimitErr (msg : String)
  | apiErr (msg : String)

/-- Typed exceptions raised by the gateway
(src/core/exceptions/agent_exceptions.py). -/
inductive GatewayErro
  | rateLimitExc (msg : String)
  | apiExc (msg : String)
  | invalidResponseExc (msg : String)
deriving DecidableEq

/-- GeminiGateway._verificar_rate_limit at clock value agora: prune
timestamps at least 60 seconds old; when the pruned window already
holds requests_per_minute entries, sleep the remaining window time if
positive.  Returns the sleep amount (0 for no sleep) and the pruned
timestamp list that the method stores back. -/
def verificar_rate_limit (agora : ℚ) (rpm : Nat)
    (timestamps : List ℚ) : ℚ × List ℚ :=
  let pruned := timestamps.filter (fun ts => decide (agora - ts < 60))
  if rpm ≤ pruned.length then
    let espera := 60 - (agora - pruned.headD 0)
    if 0 < espera then (espera, pruned) else (0, pruned)
  else (0, pruned)

/-- GeminiGateway._executar_request on a given transport outcome: on a
response, metrics are registered and the request timestamp appended
before the empty-text check (an empty text then raises
InvalidResponseException); transport failures raise without touching
metrics or timestamps. -/
def executar_request (outcome : TransportOutcome) (agora : ℚ)
    (st : GatewayState) : Except GatewayErro String × GatewayState :=
  match outcome with
  | .ok texto tin tout tempo =>
    let m := st.metricas
    let m2 := { m with
      total_requests := m.total_requests + 1
      tempo_total_seg := m.tempo_total_seg + tempo
      total_tokens_input := m.total_tokens_input + tin
      total_tokens_output := m.total_tokens_output + tout }
    let st2 := { st with
      metricas := m2
      request_timestamps := st.request_timestamps ++ [agora] }
    if texto = "" then
      (.error (.invalidResponseExc "Resposta vazia da API"), st2)
    else (.ok texto, st2)
  | .rateLimitErr msg => (.error (.rateLimitExc msg), st)
  | .apiErr msg => (.error (.apiExc msg), st)

/-- The retry loop of GeminiGateway.gerar_conteudo, for tentativa in
1..max_retries: a successful attempt stores the response in the cache
and returns it; a RateLimitException backs off 2^tentativa seconds
when attempts remain, else re-raises; any other exception increments
the error metric, then backs off or raises APIException.  The first
argument of the recursion is the attempt number, the second the number
of loop passes left. -/
def tentativas_loop (transport : Nat → TransportOutcome)
    (max_retries : Nat) (key : ChaveCache) (agora : ℚ) :
    Nat → Nat → GatewayState → List Efeito →
      Except GatewayErro String × GatewayState × List Efeito
  | _, 0, st, efeitos =>
    (.error (.apiExc "Falha inesperada no processamento"), st, efeitos)
  | tentativa, restantes + 1, st, efeitos =>
    let efeitos1 := efeitos ++ [.transportCall tentativa]
    match executar_request (transport tentativa) agora st with
    | (.ok texto, st1) =>
      (.ok texto, { st1 with cache := cache_set st1.cache key texto },
        efeitos1)
    | (.error (.rateLimitExc msg), st1) =>
      if tentativa < max_retries then
        tentativas_loop transport max_retries key agora
          (tentativa + 1) restantes st1
          (efeitos1 ++ [.sleepBackoff ((2 : ℚ) ^ tentativa)])
      else (.error (.rateLimitExc msg), st1, efeitos1)
    | (.error _e, st1) =>
      let st2 := { st1 with metricas :=
        { st1.metricas with
            total_erros := st1.metricas.total_erros + 1 } }
      if tentativa < max_retries then
        tentativas_loop transport max_retries key agora
          (tentativa + 1) restantes st2
          (efeitos1 ++ [.sleepBackoff ((2 : ℚ) ^ tentativa)])
      else
        (.error (.apiExc "Falha apos tentativas"), st2, efeitos1)

/-- The fixed mock response of GeminiGateway._mock_response. -/
def mock_resposta : String :=
  "[MOCK] Resposta simulada para desenvolvimento."

/-- GeminiGateway.gerar_conteudo at clock value agora: mock mode
returns the placeholder and counts a request; otherwise a cache hit
returns immediately with no effect, and a cache miss goes through the
rate-limit check and the retry loop. -/
def gerar_conteudo (modo_mock : Bool)
    (transport : Nat → TransportOutcome) (max_retries rpm : Nat)
    (agora : ℚ) (prompt : String) (contexto : Option String)
    (temperatura : ℚ) (st : GatewayState) :
    Except GatewayErro String × GatewayState × List Efeito :=
  if modo_mock then
    (.ok mock_resposta,
      { st with metricas := { st.metricas with
          total_requests := st.metricas.total_requests + 1 } },
      [])
  else
    let key := gerar_cache_key prompt contexto temperatura
    match cache_get st.cache key with
    | some resultado => (.ok resultado, st, [])
    | none =>
      let rl := verificar_rate_limit agora rpm st.request_timestamps
      let st1 := { st with request_timestamps := rl.2 }
      let efeitosRL : List Efeito :=
        if rl.1 = 0 then [] else [.sleepRateLimit rl.1]
      tentativas_loop transport max_retries key agora 1 max_retries
        st1 efeitosRL

/-- Simulation of successive gateway calls for the rate-limit window:
call n happens at clock value t n, runs _verificar_rate_limit, sleeps
its returned amount and records its request timestamp at completion
time.  Returns the stored timestamp list and the list of the sleep
amounts incurred, in call order. -/
def rl_run (rpm : Nat) (t : Nat → ℚ) : Nat → List ℚ × List ℚ
  | 0 => ([], [])
  | n + 1 =>
    let prev := rl_run rpm t n
    let rl := verificar_rate_limit (t n) rpm prev.1
    (rl.2 ++ [t n + rl.1], prev.2 ++ [rl.1])

/-- Outcome of one agente.processar call inside the revision loop of
RevisarSecaoUseCase.executar: either an InvalidResponseException (a
parse failure of the model response, raised by
AgenteRevisor._parsear_resposta) or a produced Revisao. -/
inductive AgentOutcome
  | parseFailure (msg : String)
  | success (rev : Revisao)

/-- Loop-carried state of RevisarSecaoUseCase.executar: the section
being revised, the current text, the previous error count and the
gateway response cache reachable through agente._gateway. -/
structure EstadoLoop where
  secao : Secao
  texto_atual : String
  erros_anterior : Nat
  cache : List (ChaveCache × String)
deriving DecidableEq

/-- The for-loop of RevisarSecaoUseCase.executar, iteration number i
with a given number of passes left.  A parse failure clears the whole
gateway cache and continues to the next iteration; a produced revision
is stamped with the iteration number and input text, appended to the
section, and convergence is decided; on convergence the stored
revision is marked convergiu and the loop breaks, otherwise the
current text (when the output text is nonempty) and previous error
count are updated.  Returns the final state and the convergiu flag. -/
def executar_iteracoes (outcomes : Nat → AgentOutcome) (limiar : ℚ) :
    Nat → Nat → EstadoLoop → EstadoLoop × Bool
  | _, 0, st => (st, false)
  | i, restantes + 1, st =>
    match outcomes i with
    | .parseFailure _ =>
      executar_iteracoes outcomes limiar (i + 1) restantes
        { st with cache := limpar_cache st.cache }
    | .success rev =>
      let rev1 := { rev with
        numero_iteracao := i
        texto_entrada := st.texto_atual }
      let secao1 := st.secao.adicionar_revisao rev1
      let erros_atual := rev1.total_erros
      let conv := verificar_convergencia st.erros_anterior erros_atual
        limiar
      if conv then
        let secao2 := { secao1 with revisoes :=
          secao1.revisoes.dropLast ++ [{ rev1 with convergiu := true }] }
        ({ st with secao := secao2 }, true)
      else
        executar_iteracoes outcomes limiar (i + 1) restantes
          { st with
              secao := secao1
              texto_atual :=
                if rev1.texto_saida ≠ "" then rev1.texto_saida
                else st.texto_atual
              erros_anterior := erros_atual }

/-- Result of RevisarSecaoUseCase.executar: the returned DTO, the
mutated section and the gateway cache after the run. -/
structure LoopResultado where
  dto : RevisarSecaoOutputDTO
  secao : Secao
  cache : List (ChaveCache × String)
deriving DecidableEq

/-- RevisarSecaoUseCase.executar: sets the section status to
REVISANDO, runs the iteration loop starting from the original content
with a zero previous error count, then sets the status to CONCLUIDO
and builds the output DTO. -/
def executar_revisao (outcomes : Nat → AgentOutcome)
    (max_iteracoes : Nat) (limiar : ℚ) (secao : Secao)
    (cache : List (ChaveCache × String)) : LoopResultado :=
  let secao0 := { secao with status := .revisando }
  let st0 : EstadoLoop :=
    { secao := secao0
      texto_atual := secao.conteudo_original
      erros_anterior := 0
      cache := cache }
  let resultado := executar_iteracoes outcomes limiar 1 max_iteracoes st0
  let secaoF := { resultado.1.secao with status := .concluido }
  { dto := criar_output secaoF resultado.2
    secao := secaoF
    cache := resultado.1.cache }

/-- The keyword parameters accepted by ProcessarTextoUseCase.init
(src/application/use_cases/processar_texto/processar_texto_use_case.py,
lines 69-84). -/
def processar_texto_use_case_parametros : List String :=
  ["pdf_processor", "agentes_revisores", "agente_validador",
   "agente_consistencia", "texto_repo", "config_repo",
   "geradores_relatorio", "logger", "callback_progresso"]

/-- The keyword arguments OrquestradorRevisao.processar_texto passes
when constructing ProcessarTextoUseCase
(src/application/services/orquestrador_revisao.py, lines 114-129). -/
def orquestrador_kwargs : List String :=
  ["pdf_processor", "agentes_revisores", "agente_validador",
   "agente_consistencia", "texto_repo", "config_repo",
   "geradores_relatorio", "logger", "callback_progresso",
   "check_cancel"]

/-- Result of a modelled Python call: a returned value or a raised
exception carrying its class name and message. -/
inductive PyResultado (α : Type)
  | retorno (v : α)
  | excecao (classe msg : String)
deriving DecidableEq

/-- Embedding of the ProcessarTextoOutputDTO dataclass
(src/application/use_cases/processar_texto/dto.py), reduced to the
fields the claims mention. -/
structure ProcessarTextoOutputDTO where
  sucesso : Bool
  mensagem : String
deriving DecidableEq

/-- Python keyword binding for ProcessarTextoUseCase.init: an
unexpected keyword argument raises TypeError before the constructor
body runs. -/
def construir_use_case (kwargs : List String) : PyResultado Unit :=
  match kwargs.find?
      (fun k => decide (k ∉ processar_texto_use_case_parametros)) with
  | some k =>
    .excecao "TypeError" ("unexpected keyword argument " ++ k)
  | none => .retorno ()

/-- OrquestradorRevisao.processar_texto: constructs
ProcessarTextoUseCase with orquestrador_kwargs and, only if the
construction succeeds, delegates to executar, whose result is
abstracted by the parameter resultado_executar. -/
def orquestrador_processar_texto
    (resultado_executar : ProcessarTextoOutputDTO) :
    PyResultado ProcessarTextoOutputDTO :=
  match construir_use_case orquestrador_kwargs with
  | .excecao classe msg => .excecao classe msg
  | .retorno _ => .retorno resultado_executar

/-- Observable actions of ProcessarTextoUseCase.executar, in program
order; progress percentages and message texts are abstracted to the
stage name. -/
inductive EventoPipeline
  | notificar (etapa : String)
  | verificar_cancelamento
  | carregar_documento
  | extrair
  | revisar (fase secao : Nat)
  | validar (secao : Nat)
  | consistencia
  | sintese
  | gerar_relatorio
  | salvar_texto
deriving DecidableEq

/-- The sequence of observable actions performed by the happy path of
ProcessarTextoUseCase.executar, transcribed from the source: progress
notifications, document load, extraction, the per-phase per-section
revision loops, per-section validation, consistency, synthesis, report
generation and persistence.  No cancellation check appears anywhere in
the method body. -/
def executar_eventos (num_fases num_secoes : Nat) :
    List EventoPipeline :=
  [.notificar "inicio", .notificar "carregamento",
   .carregar_documento, .notificar "extracao", .extrair,
   .notificar "extracao"]
  ++ ((List.range num_fases).map (fun f =>
        [EventoPipeline.notificar "revisao"]
        ++ ((List.range num_secoes).map (fun s =>
              [EventoPipeline.notificar "revisao",
               EventoPipeline.revisar f s])).flatten
        ++ [EventoPipeline.notificar "revisao"])).flatten
  ++ [.notificar "validacao"]
  ++ ((List.range num_secoes).map (fun s =>
        [EventoPipeline.notificar "validacao",
         EventoPipeline.validar s])).flatten
  ++ [.notificar "validacao", .notificar "consistencia",
      .consistencia, .notificar "consistencia", .notificar "sintese",
      .sintese, .notificar "sintese", .notificar "relatorio",
      .gerar_relatorio, .salvar_texto, .notificar "concluido"]

/-- C3: the convergence test of the revision loop returns true exactly
when the current error count is zero, or the previous count is nonzero
and the reduction rate 1 - atual/anterior is strictly below
1 - limiar; in particular the boundary case of exact equality does not
converge. -/
theorem c3_convergencia_caracterizacao (a b : Nat) (l : ℚ) :
    (verificar_convergencia a b l = true ↔
      (b = 0 ∨ (a ≠ 0 ∧ (1 : ℚ) - (b : ℚ) / (a : ℚ) < 1 - l))) ∧
    (a ≠ 0 → b ≠ 0 → (1 : ℚ) - (b : ℚ) / (a : ℚ) = 1 - l →
      verificar_convergencia a b l = false) := by
  constructor
  · unfold verificar_convergencia
    by_cases hb : b = 0
    · simp [hb]
    · by_cases ha : a = 0
      · simp [ha, hb]
      · simp [ha, hb]
  · intro ha hb heq
    unfold verificar_convergencia
    simp [ha, hb, heq]

/-- The dedup loop output is a sublist of its input, so the order of
first occurrences is preserved. -/
theorem dedupErros_sublist (l : List Erro)
    (unicos : List (String × String)) :
    (dedupErros l unicos).Sublist l := by
  induction l generalizing unicos with
  | nil => simp [dedupErros]
  | cons e resto ih =>
    simp only [dedupErros]
    split
    · exact (ih unicos).cons e
    · exact (ih _).cons₂ e

/-- Every element kept by the dedup loop has a key outside the seen
set and is the first element of the input with its key. -/
theorem dedupErros_mem_spec (l : List Erro)
    (unicos : List (String × String)) :
    ∀ u ∈ dedupErros l unicos, chave_erro u ∉ unicos ∧
      l.find? (fun e => decide (chave_erro e = chave_erro u)) =
        some u := by
  induction l generalizing unicos with
  | nil => simp [dedupErros]
  | cons e resto ih =>
    intro u hu
    by_cases hc : chave_erro e ∈ unicos
    · simp only [dedupErros, if_pos hc] at hu
      obtain ⟨hnotin, hfind⟩ := ih unicos u hu
      have hne : ¬ (chave_erro e = chave_erro u) := fun h =>
        hnotin (h ▸ hc)
      refine ⟨hnotin, ?_⟩
      simp [List.find?_cons, hne, hfind]
    · simp only [dedupErros, if_neg hc] at hu
      rcases List.mem_cons.mp hu with rfl | hu2
      · exact ⟨hc, by simp [List.find?_cons]⟩
      · obtain ⟨hnotin, hfind⟩ := ih (chave_erro e :: unicos) u hu2
        have hne : ¬ (chave_erro e = chave_erro u) := fun h =>
          hnotin (by simp [h])
        refine ⟨fun h => hnotin (List.mem_cons_of_mem _ h), ?_⟩
        simp [List.find?_cons, hne, hfind]

/-- The keys of the dedup loop output are pairwise distinct. -/
theorem dedupErros_keys_nodup (l : List Erro)
    (unicos : List (String × String)) :
    ((dedupErros l unicos).map chave_erro).Nodup := by
  induction l generalizing unicos with
  | nil => simp [dedupErros]
  | cons e resto ih =>
    simp only [dedupErros]
    split
    · exact ih unicos
    · simp only [List.map_cons, List.nodup_cons]
      refine ⟨fun hmem => ?_, ih _⟩
      obtain ⟨u, hu, hch⟩ := List.mem_map.mp hmem
      have h := (dedupErros_mem_spec resto (chave_erro e :: unicos)
        u hu).1
      exact h (by simp [hch])

/-- Every input error has a representative with its key in the dedup
loop output, unless its key was already seen. -/
theorem dedupErros_cobre (l : List Erro)
    (unicos : List (String × String)) :
    ∀ e ∈ l, chave_erro e ∈ unicos ∨
      ∃ u ∈ dedupErros l unicos, chave_erro u = chave_erro e := by
  induction l generalizing unicos with
  | nil => simp
  | cons a resto ih =>
    intro e he
    rcases List.mem_cons.mp he with rfl | he2
    · by_cases hc : chave_erro e ∈ unicos
      · exact .inl hc
      · exact .inr ⟨e, by simp [dedupErros, hc], rfl⟩
    · by_cases hc : chave_erro a ∈ unicos
      · rcases ih unicos e he2 with h | ⟨u, hu, h⟩
        · exact .inl h
        · exact .inr ⟨u, by simp only [dedupErros, if_pos hc]; exact hu, h⟩
      · rcases ih (chave_erro a :: unicos) e he2 with h | ⟨u, hu, h⟩
        · rcases List.mem_cons.mp h with h1 | h1
          · exact .inr ⟨a, by simp [dedupErros, hc], h1.symm⟩
          · exact .inl h1
        · exact .inr ⟨u, by
            simp only [dedupErros, if_neg hc]
            exact List.mem_cons_of_mem _ hu, h⟩

/-- C4: obter_todos_erros returns a subsequence of the errors of all
revisions in revision-then-error order, with pairwise distinct
(category, normalized snippet) keys, covering every key that occurs,
and each returned error is the first occurrence of its key. -/
theorem c4_obter_todos_erros_dedup (s : Secao) :
    (s.obter_todos_erros).Sublist
      ((s.revisoes.map Revisao.erros).flatten) ∧
    ((s.obter_todos_erros).map chave_erro).Nodup ∧
    (∀ e ∈ (s.revisoes.map Revisao.erros).flatten,
      ∃ u ∈ s.obter_todos_erros, chave_erro u = chave_erro e) ∧
    (∀ u ∈ s.obter_todos_erros,
      ((s.revisoes.map Revisao.erros).flatten).find?
        (fun e => decide (chave_erro e = chave_erro u)) = some u) := by
  refine ⟨dedupErros_sublist _ _, dedupErros_keys_nodup _ _, ?_, ?_⟩
  · intro e he
    rcases dedupErros_cobre _ [] e he with h | h
    · simp at h
    · exact h
  · intro u hu
    exact (dedupErros_mem_spec _ [] u hu).2

/-- C10: whenever the revision use case returns normally the section
status is CONCLUIDO and the DTO has sucesso = true, for every possible
run, including exhaustion of the iteration budget; non-convergence is
visible only in the convergiu flag, which equals the loop outcome. -/
theorem c10_sucesso_e_concluido (outcomes : Nat → AgentOutcome)
    (max_iteracoes : Nat) (limiar : ℚ) (secao : Secao)
    (cache : List (ChaveCache × String)) :
    (executar_revisao outcomes max_iteracoes limiar secao
        cache).dto.sucesso = true ∧
    (executar_revisao outcomes max_iteracoes limiar secao
        cache).secao.status = .concluido ∧
    (executar_revisao outcomes max_iteracoes limiar secao
        cache).dto.convergiu =
      (executar_iteracoes outcomes limiar 1 max_iteracoes
        { secao := { secao with status := .revisando }
          texto_atual := secao.conteudo_original
          erros_anterior := 0
          cache := cache }).2 :=
  ⟨rfl, rfl, rfl⟩

/-- C6: when agente.processar signals an invalid response at iteration
i, the loop proceeds to iteration i+1 with one fewer pass left, the
section, current text and previous error count unchanged (so no
Revisao is recorded), and the gateway cache cleared. -/
theorem c6_parse_failure_iteracao_gasta (outcomes : Nat → AgentOutcome)
    (limiar : ℚ) (i restantes : Nat) (st : EstadoLoop) (msg : String)
    (h : outcomes i = .parseFailure msg) :
    executar_iteracoes outcomes limiar i (restantes + 1) st =
      executar_iteracoes outcomes limiar (i + 1) restantes
        { st with cache := [] } := by
  simp only [executar_iteracoes, h, limpar_cache]

/-- Fixed section used by concrete witnesses. -/
def secao_exemplo : Secao :=
  { titulo := "Texto Completo"
    conteudo_original := "conteudo"
    numero_pagina_inicio := 1
    numero_pagina_fim := 1 }

/-- Witness for c6_parse_failure_iteracao_gasta at a concrete input. -/
theorem c6_parse_failure_iteracao_gasta_witness :
    ((fun _ : Nat => AgentOutcome.parseFailure "JSON truncado") 1 =
      AgentOutcome.parseFailure "JSON truncado") ∧
    executar_iteracoes (fun _ => AgentOutcome.parseFailure "JSON truncado")
        (95/100) 1 (0 + 1)
        { secao := secao_exemplo
          texto_atual := "conteudo"
          erros_anterior := 0
          cache := [(("p", none, 0), "resposta")] } =
      executar_iteracoes (fun _ => AgentOutcome.parseFailure "JSON truncado")
        (95/100) (1 + 1) 0
        { secao := secao_exemplo
          texto_atual := "conteudo"
          erros_anterior := 0
          cache := [] } :=
  ⟨rfl, c6_parse_failure_iteracao_gasta _ _ _ _ _ _ rfl⟩

/-- C5 counterexample: a run whose only iteration is a parse failure,
started with cached responses for two distinct requests; the cached
response of the other request (key p2) does not survive, refuting the
claim that entries of other requests remain in the cache. -/
theorem c5_counterexample_outra_chave_removida :
    ¬ (cache_get
        (executar_revisao (fun _ => AgentOutcome.parseFailure "JSON truncado")
          1 (95/100) secao_exemplo
          [(("p1", none, 0), "r1"), (("p2", none, 0), "r2")]).cache
        ("p2", none, 0) = some "r2") := by
  decide

/-- C5 amended: a parse failure at iteration i clears the entire
gateway cache (limpar_cache), leaving section, current text and
previous error count untouched, and the loop proceeds to iteration
i+1. -/
theorem c5_cache_inteiro_limpo (outcomes : Nat → AgentOutcome)
    (limiar : ℚ) (i restantes : Nat) (st : EstadoLoop) (msg : String)
    (h : outcomes i = .parseFailure msg) :
    ∃ st2 : EstadoLoop,
      executar_iteracoes outcomes limiar i (restantes + 1) st =
        executar_iteracoes outcomes limiar (i + 1) restantes st2 ∧
      st2.cache = [] ∧ st2.secao = st.secao ∧
      st2.texto_atual = st.texto_atual ∧
      st2.erros_anterior = st.erros_anterior := by
  refine ⟨{ st with cache := [] }, ?_, rfl, rfl, rfl, rfl⟩
  simp only [executar_iteracoes, h, limpar_cache]

/-- Witness for c5_cache_inteiro_limpo at a concrete input. -/
theorem c5_cache_inteiro_limpo_witness :
    ((fun _ : Nat => AgentOutcome.parseFailure "resposta vazia") 3 =
      AgentOutcome.parseFailure "resposta vazia") ∧
    (∃ st2 : EstadoLoop,
      executar_iteracoes (fun _ => AgentOutcome.parseFailure "resposta vazia")
          (95/100) 3 (1 + 1)
          { secao := secao_exemplo
            texto_atual := "texto"
            erros_anterior := 2
            cache := [(("p1", none, 0), "r1"), (("p2", none, 0), "r2")] } =
        executar_iteracoes (fun _ => AgentOutcome.parseFailure "resposta vazia")
          (95/100) (3 + 1) 1 st2 ∧
      st2.cache = [] ∧
      st2.secao = secao_exemplo ∧
      st2.texto_atual = "texto" ∧
      st2.erros_anterior = 2) :=
  ⟨rfl, c5_cache_inteiro_limpo _ _ _ _ _ _ rfl⟩

/-- Overwriting lookup: after a dict assignment the stored value is
found under its key. -/
theorem cache_get_set (c : List (ChaveCache × String)) (k : ChaveCache)
    (v : String) : cache_get (cache_set c k v) k = some v := by
  unfold cache_set
  by_cases h : (cache_get c k).isSome
  · rw [if_pos h]
    induction c with
    | nil => simp [cache_get] at h
    | cons p resto ih =>
      by_cases hp : p.1 = k
      · simp [cache_get, List.find?_cons, hp]
      · have h2 : (cache_get resto k).isSome := by
          simpa [cache_get, List.find?_cons, hp] using h
        simp only [List.map_cons, if_neg hp]
        simpa [cache_get, List.find?_cons, hp] using ih h2
  · rw [if_neg h]
    have hnone : c.find? (fun p => decide (p.1 = k)) = none := by
      rcases hfind : c.find? (fun p => decide (p.1 = k)) with _ | p
      · exact hfind
      · exact absurd (by simp [cache_get, hfind]) h
    simp [cache_get, List.find?_append, hnone]

/-- C7: with a fixed non-mock gateway and a transport that answers the
first attempt, two gerar_conteudo calls with identical prompt, context
and temperature return the identical text; the transport is invoked
exactly once over both calls, and the second call is a cache hit that
changes no state (hence increments no metric) and performs no
effect. -/
theorem c7_cache_hit_segunda_chamada
    (transport : Nat → TransportOutcome) (max_retries rpm : Nat)
    (agora1 agora2 : ℚ) (prompt : String) (contexto : Option String)
    (temperatura : ℚ) (st : GatewayState) (texto : String)
    (tin tout : Nat) (tempo : ℚ)
    (hT : transport 1 = .ok texto tin tout tempo) (hne : texto ≠ "")
    (hmr : 1 ≤ max_retries)
    (hmiss : cache_get st.cache
      (gerar_cache_key prompt contexto temperatura) = none) :
    ∃ st1 : GatewayState, ∃ efeitos1 : List Efeito,
      gerar_conteudo false transport max_retries rpm agora1 prompt
          contexto temperatura st = (.ok texto, st1, efeitos1) ∧
      efeitos1.countP (fun e => match e with
        | .transportCall _ => true | _ => false) = 1 ∧
      gerar_conteudo false transport max_retries rpm agora2 prompt
          contexto temperatura st1 = (.ok texto, st1, []) := by
  obtain ⟨k, rfl⟩ : ∃ k, max_retries = k + 1 :=
    ⟨max_retries - 1, (Nat.succ_pred_eq_of_pos hmr).symm⟩
  cases hrl : verificar_rate_limit agora1 rpm st.request_timestamps with
  | mk espera pruned =>
    refine ⟨{ cache := cache_set st.cache
                (gerar_cache_key prompt contexto temperatura) texto
              metricas := { st.metricas with
                total_requests := st.metricas.total_requests + 1
                tempo_total_seg := st.metricas.tempo_total_seg + tempo
                total_tokens_input := st.metricas.total_tokens_input + tin
                total_tokens_output :=
                  st.metricas.total_tokens_output + tout }
              request_timestamps := pruned ++ [agora1] },
            (if espera = 0 then ([] : List Efeito)
             else [.sleepRateLimit espera]) ++ [.transportCall 1],
            ?_, ?_, ?_⟩
    · simp [gerar_conteudo, hmiss, hrl, tentativas_loop,
        executar_request, hT, hne]
    · by_cases hesp : espera = 0 <;>
        simp [hesp, List.countP_append, List.countP_cons]
    · simp [gerar_conteudo, cache_get_set]

/-- Witness for c7_cache_hit_segunda_chamada at a concrete input. -/
theorem c7_cache_hit_segunda_chamada_witness :
    ((fun _ : Nat => TransportOutcome.ok "ola" 1 2 0) 1 =
      TransportOutcome.ok "ola" 1 2 0) ∧
    ("ola" ≠ "") ∧ ((1 : Nat) ≤ 3) ∧
    (cache_get ({} : GatewayState).cache
      (gerar_cache_key "p" none 0) = none) ∧
    (∃ st1 : GatewayState, ∃ efeitos1 : List Efeito,
      gerar_conteudo false (fun _ => TransportOutcome.ok "ola" 1 2 0)
          3 60 0 "p" none 0 {} = (.ok "ola", st1, efeitos1) ∧
      efeitos1.countP (fun e => match e with
        | .transportCall _ => true | _ => false) = 1 ∧
      gerar_conteudo false (fun _ => TransportOutcome.ok "ola" 1 2 0)
          3 60 1 "p" none 0 st1 = (.ok "ola", st1, [])) :=
  ⟨rfl, by decide, by decide, rfl,
    c7_cache_hit_segunda_chamada _ 3 60 0 1 "p" none 0 {} "ola" 1 2 0
      rfl (by decide) (by decide) rfl⟩

/-- C8: with maxRetries = 3, a transport that raises a generic
transient failure on attempts 1 and 2 and succeeds on attempt 3 makes
gerar_conteudo return the attempt-3 text after exactly the two backoff
sleeps of 2^1 = 2 and 2^2 = 4 seconds, with the error-count metric
incremented exactly twice. -/
theorem c8_duas_falhas_depois_sucesso
    (transport : Nat → TransportOutcome) (rpm : Nat) (agora : ℚ)
    (prompt : String) (contexto : Option String) (temperatura : ℚ)
    (st : GatewayState) (s : String) (tin tout : Nat) (tempo : ℚ)
    (m1 m2 : String)
    (h1 : transport 1 = .apiErr m1) (h2 : transport 2 = .apiErr m2)
    (h3 : transport 3 = .ok s tin tout tempo) (hs : s ≠ "")
    (hmiss : cache_get st.cache
      (gerar_cache_key prompt contexto temperatura) = none) :
    (gerar_conteudo false transport 3 rpm agora prompt contexto
        temperatura st).1 = .ok s ∧
    ((gerar_conteudo false transport 3 rpm agora prompt contexto
        temperatura st).2.2).filter (fun e => match e with
        | .sleepBackoff _ => true | _ => false) =
      [.sleepBackoff 2, .sleepBackoff 4] ∧
    (gerar_conteudo false transport 3 rpm agora prompt contexto
        temperatura st).2.1.metricas.total_erros =
      st.metricas.total_erros + 2 := by
  cases hrl : verificar_rate_limit agora rpm st.request_timestamps with
  | mk espera pruned =>
    refine ⟨?_, ?_, ?_⟩
    · simp [gerar_conteudo, hmiss, hrl, tentativas_loop,
        executar_request, h1, h2, h3, hs]
    · by_cases hesp : espera = 0 <;>
        simp [gerar_conteudo, hmiss, hrl, tentativas_loop,
          executar_request, h1, h2, h3, hs, hesp] <;>
        norm_num
    · simp [gerar_conteudo, hmiss, hrl, tentativas_loop,
        executar_request, h1, h2, h3, hs]

/-- Transport used by the c8 witness: fails twice, then succeeds. -/
def transporte_c8 : Nat → TransportOutcome
  | 1 => .apiErr "erro transiente 1"
  | 2 => .apiErr "erro transiente 2"
  | _ => .ok "texto final" 5 7 1

/-- Witness for c8_duas_falhas_depois_sucesso at a concrete input. -/
theorem c8_duas_falhas_depois_sucesso_witness :
    (transporte_c8 1 = .apiErr "erro transiente 1") ∧
    (transporte_c8 2 = .apiErr "erro transiente 2") ∧
    (transporte_c8 3 = .ok "texto final" 5 7 1) ∧
    ("texto final" ≠ "") ∧
    (cache_get ({} : GatewayState).cache
      (gerar_cache_key "p" none 0) = none) ∧
    ((gerar_conteudo false transporte_c8 3 60 0 "p" none 0 {}).1 =
      .ok "texto final" ∧
    ((gerar_conteudo false transporte_c8 3 60 0 "p" none
        0 {}).2.2).filter (fun e => match e with
        | .sleepBackoff _ => true | _ => false) =
      [.sleepBackoff 2, .sleepBackoff 4] ∧
    (gerar_conteudo false transporte_c8 3 60 0 "p" none
        0 {}).2.1.metricas.total_erros =
      ({} : GatewayState).metricas.total_erros + 2) :=
  ⟨rfl, rfl, rfl, by decide, rfl,
    c8_duas_falhas_depois_sucesso transporte_c8 60 0 "p" none 0 {}
      "texto final" 5 7 1 "erro transiente 1" "erro transiente 2"
      rfl rfl rfl (by decide) rfl⟩

/-- While at most rpm calls have been issued inside the window, no
call waits: the stored timestamps are exactly the call times and every
sleep amount so far is zero. -/
theorem rl_run_prefixo (rpm : Nat) (t : Nat → ℚ)
    (hmono : ∀ i j, i ≤ j → j ≤ rpm → t i ≤ t j)
    (hspan : t rpm - t 0 < 60) :
    ∀ n, n ≤ rpm →
      rl_run rpm t n = ((List.range n).map t, List.replicate n 0) := by
  intro n
  induction n with
  | zero => intro _; rfl
  | succ m ih =>
    intro hm
    have hmle : m ≤ rpm := Nat.le_of_succ_le hm
    have hkeep : ((List.range m).map t).filter
        (fun ts => decide (t m - ts < 60)) = (List.range m).map t := by
      apply List.filter_eq_self.mpr
      intro x hx
      obtain ⟨i, hi, rfl⟩ := List.mem_map.mp hx
      have hi2 : i < m := List.mem_range.mp hi
      have hle1 : t 0 ≤ t i :=
        hmono 0 i (Nat.zero_le _) (le_trans (Nat.le_of_lt hi2) hmle)
      have hle2 : t m ≤ t rpm := hmono m rpm hmle le_rfl
      exact decide_eq_true (by linarith)
    have hlen : ¬ rpm ≤ ((List.range m).map t).length := by
      simpa using Nat.not_le.mpr (Nat.lt_of_succ_le hm)
    rw [rl_run, ih hmle]
    unfold verificar_rate_limit
    simp only [hkeep]
    rw [if_neg hlen]
    simp [List.range_succ, List.replicate_succ']

/-- C9: the rate-limit check prunes exactly the timestamps at least 60
seconds old, and issuing rpm + 1 calls whose times all lie inside one
60-second window causes exactly one wait: the first rpm calls sleep 0
and the last sleeps the positive remaining window time, then
proceeds. -/
theorem c9_rate_limit_uma_espera (rpm : Nat) (t : Nat → ℚ)
    (hrpm : 1 ≤ rpm)
    (hmono : ∀ i j, i ≤ j → j ≤ rpm → t i ≤ t j)
    (hspan : t rpm - t 0 < 60) :
    (∀ agora ts, (verificar_rate_limit agora rpm ts).2 =
      ts.filter (fun x => decide (agora - x < 60))) ∧
    (rl_run rpm t (rpm + 1)).2 =
      List.replicate rpm 0 ++ [60 - (t rpm - t 0)] ∧
    0 < 60 - (t rpm - t 0) := by
  have hpos : 0 < 60 - (t rpm - t 0) := by linarith
  refine ⟨?_, ?_, hpos⟩
  · intro agora ts
    unfold verificar_rate_limit
    by_cases h : rpm ≤ (ts.filter (fun x => decide (agora - x < 60))).length
    · rw [if_pos h]
      dsimp only
      split <;> rfl
    · rw [if_neg h]
  · rw [rl_run, rl_run_prefixo rpm t hmono hspan rpm le_rfl]
    have hkeep : ((List.range rpm).map t).filter
        (fun ts => decide (t rpm - ts < 60)) = (List.range rpm).map t := by
      apply List.filter_eq_self.mpr
      intro x hx
      obtain ⟨i, hi, rfl⟩ := List.mem_map.mp hx
      have hi2 : i < rpm := List.mem_range.mp hi
      have hle1 : t 0 ≤ t i := hmono 0 i (Nat.zero_le _) (Nat.le_of_lt hi2)
      exact decide_eq_true (by linarith)
    have hlen : rpm ≤ ((List.range rpm).map t).length := by simp
    have hhead : ((List.range rpm).map t).headD 0 = t 0 := by
      obtain ⟨k, rfl⟩ : ∃ k, rpm = k + 1 :=
        ⟨rpm - 1, (Nat.succ_pred_eq_of_pos hrpm).symm⟩
      simp [List.range_succ_eq_map]
    unfold verificar_rate_limit
    simp only [hkeep, hhead]
    rw [if_pos hlen, if_pos hpos]

/-- Witness for c9_rate_limit_uma_espera at rpm = 1 and call times
0 and 1: the second call waits 59 seconds. -/
theorem c9_rate_limit_uma_espera_witness :
    ((1 : Nat) ≤ 1) ∧
    (∀ i j : Nat, i ≤ j → j ≤ 1 → ((i : ℚ) ≤ (j : ℚ))) ∧
    (((1 : Nat) : ℚ) - ((0 : Nat) : ℚ) < 60) ∧
    ((∀ agora ts, (verificar_rate_limit agora 1 ts).2 =
        ts.filter (fun x => decide (agora - x < 60))) ∧
      (rl_run 1 (fun i => (i : ℚ)) (1 + 1)).2 =
        List.replicate 1 0 ++
          [60 - (((1 : Nat) : ℚ) - ((0 : Nat) : ℚ))] ∧
      0 < 60 - (((1 : Nat) : ℚ) - ((0 : Nat) : ℚ))) :=
  ⟨by decide, fun i j hij _ => by exact_mod_cast hij, by norm_num,
    c9_rate_limit_uma_espera 1 (fun i => (i : ℚ)) (by decide)
      (fun i j hij _ => by
        show (i : ℚ) ≤ (j : ℚ)
        exact_mod_cast hij) (by norm_num)⟩

/-- C1 (bug evidence): for every result the use case could produce,
OrquestradorRevisao.processar_texto raises TypeError instead of
returning it, because the orchestrator passes the keyword argument
check_cancel and ProcessarTextoUseCase.init does not accept it; the
construction happens outside executar's try/except, so the exception
escapes to the caller. -/
theorem c1_processar_texto_sempre_levanta
    (resultado_executar : ProcessarTextoOutputDTO) :
    orquestrador_processar_texto resultado_executar =
      .excecao "TypeError" "unexpected keyword argument check_cancel" ∧
    "check_cancel" ∉ processar_texto_use_case_parametros ∧
    "check_cancel" ∈ orquestrador_kwargs :=
  ⟨rfl, by decide, by decide⟩

/-- C2 (bug evidence): the body of ProcessarTextoUseCase.executar
performs no cancellation check at any stage or section boundary, for
any number of phases and sections, and its constructor does not even
accept the check_cancel callback the orchestrator and the test suite
supply. -/
theorem c2_pipeline_sem_verificacao_cancelamento
    (num_fases num_secoes : Nat) :
    EventoPipeline.verificar_cancelamento ∉
      executar_eventos num_fases num_secoes ∧
    "check_cancel" ∉ processar_texto_use_case_parametros := by
  refine ⟨?_, by decide⟩
  intro h
  simp [executar_eventos] at h
